import Mathlib

/-!
Shallow embedding of the analytics computations of the `companies`
repository (src/app.py dashboard, src/1.py console report, src/2.py charts).
Python dict records become structures with `Option` fields where the code
reads them through `dict.get` with a default; `dict.get k d` is `Option.getD`.
Python float arithmetic on these metrics is embedded as exact rational
arithmetic over `ℚ`.
-/

namespace Companies

/-- A user record. `user_type_name` is read as `u.get('user_type_name', 'Unknown')`,
`user_status` as `u.get('user_status', ...)` (absent = `none`),
`isActive` as `u.get('isActive', False)`. -/
structure User where
  user_type_name : Option String
  user_status : Option Bool
  isActive : Option Bool
deriving Repr, DecidableEq

/-- An instance record; `active` is read as `i.get('active', False)`. -/
structure Instance where
  active : Option Bool
deriving Repr, DecidableEq

/-- A channel record; `isActive` is read as `ch.get('isActive', False)`. -/
structure Channel where
  isActive : Option Bool
deriving Repr, DecidableEq

/-- A company record. The counter fields are stored already defaulted
(`company.get('users_count', 0)` etc. defaults to 0), the collections
already defaulted to `[]` (`company.get('users', [])`). -/
structure Company where
  name : Option String
  users : List User
  instances : List Instance
  channels : List Channel
  users_count : Nat
  instances_count : Nat
  broadcasts_count : Nat
deriving Repr, DecidableEq

/-- `company.get('name', 'Unknown')`. -/
def companyName (c : Company) : String := c.name.getD "Unknown"

/-- The activity test used throughout src/app.py:
`u.get('isActive', False)` (e.g. app.py lines 1958, 2232, 2661). -/
def User.activeApp (u : User) : Bool := u.isActive.getD false

/-- The activity test used in src/1.py (lines 68, 179, 200, 248) and
src/2.py (lines 215, 513): `u.get('user_status', u.get('isActive', False))`. -/
def User.activeConsole (u : User) : Bool := u.user_status.getD (u.isActive.getD false)

/-- `i.get('active', False)` for instances. -/
def Instance.activeApp (i : Instance) : Bool := i.active.getD false

/-- `ch.get('isActive', False)` for channels. -/
def Channel.activeApp (ch : Channel) : Bool := ch.isActive.getD false

/-- `sum(1 for u in users if u.get('isActive', False))` (app.py). -/
def countActiveUsers (us : List User) : Nat := (us.filter User.activeApp).length

/-- `sum(1 for u in users if u.get('user_status', u.get('isActive', False)))`
from src/1.py `analyze_users`. -/
def consoleActiveCount (us : List User) : Nat := (us.filter User.activeConsole).length

/-- `sum(1 for i in instances if i.get('active', False))`. -/
def countActiveInstances (is_ : List Instance) : Nat := (is_.filter Instance.activeApp).length

/-- `sum(1 for c in channels if c.get('isActive', False))` (app.py line 322). -/
def countActiveChannels (chs : List Channel) : Nat := (chs.filter Channel.activeApp).length

/-! Per-company rates, each guarded against an empty collection exactly as in
the source (`... if users else 0` and friends, app.py lines 1959-1979, 2661-2665, 322). -/

/-- `(active_users / len(users) * 100) if users else 0`. -/
def userActivationRate (c : Company) : ℚ :=
  if c.users = [] then 0 else (countActiveUsers c.users : ℚ) / (c.users.length : ℚ) * 100

/-- `(active_instances / len(instances) * 100) if instances else 0`. -/
def instanceUtilizationRate (c : Company) : ℚ :=
  if c.instances = [] then 0
  else (countActiveInstances c.instances : ℚ) / (c.instances.length : ℚ) * 100

/-- `(sum(1 for c in channels if c.get('isActive', False)) / len(channels) * 100) if channels else 0`
(app.py line 322). -/
def channelActivityRate (c : Company) : ℚ :=
  if c.channels = [] then 0
  else (countActiveChannels c.channels : ℚ) / (c.channels.length : ℚ) * 100

/-- `len(users) / len(channels) if channels else 0`. -/
def usersPerChannel (c : Company) : ℚ :=
  if c.channels = [] then 0 else (c.users.length : ℚ) / (c.channels.length : ℚ)

/-- `broadcasts / len(users) if users else 0` (app.py line 2664). -/
def broadcastsPerUser (c : Company) : ℚ :=
  if c.users = [] then 0 else (c.broadcasts_count : ℚ) / (c.users.length : ℚ)

/-- `broadcasts / len(instances) if instances else 0`. -/
def broadcastsPerInstance (c : Company) : ℚ :=
  if c.instances = [] then 0 else (c.broadcasts_count : ℚ) / (c.instances.length : ℚ)

/-! Health Scoring Engine (app.py lines 1949-2008). -/

/-- `len(Counter(u.get('user_type_name', 'Unknown') for u in users))`:
the number of distinct user type names. -/
def distinctTypeCount (c : Company) : Nat :=
  (c.users.map (fun u => u.user_type_name.getD "Unknown")).dedup.length

/-- `type_diversity = len(user_types) / 4 * 100` — note: not capped at 100. -/
def typeDiversity (c : Company) : ℚ := (distinctTypeCount c : ℚ) / 4 * 100

/-- `engagement_score = user_activity_rate * 0.6 + instance_activity_rate * 0.4`. -/
def engagementScore (c : Company) : ℚ :=
  userActivationRate c * 0.6 + instanceUtilizationRate c * 0.4

/-- `adoption_score = type_diversity * 0.4 + has_broadcasts * 0.3 + has_channels * 0.3`
with `has_broadcasts = 100 if broadcasts > 0 else 0` and
`has_channels = 100 if len(channels) > 0 else 0`. -/
def adoptionScore (c : Company) : ℚ :=
  typeDiversity c * 0.4
    + (if c.broadcasts_count > 0 then (100 : ℚ) else 0) * 0.3
    + (if c.channels.length > 0 then (100 : ℚ) else 0) * 0.3

/-- `growth_potential = min((users_per_channel / 10 * 50) + (broadcasts_per_instance / 5 * 50), 100)`. -/
def growthPotential (c : Company) : ℚ :=
  min (usersPerChannel c / 10 * 50 + broadcastsPerInstance c / 5 * 50) 100

/-- The weighted combination used for the overall health score:
`engagement_score * 0.4 + adoption_score * 0.3 + growth_potential * 0.3`. -/
def overallOf (e a g : ℚ) : ℚ := e * 0.4 + a * 0.3 + g * 0.3

/-- `overall_health` per company. -/
def overallHealth (c : Company) : ℚ :=
  overallOf (engagementScore c) (adoptionScore c) (growthPotential c)

/-- The status / risk / recommendation tier chain on the overall health
score (app.py lines 1989-2008): `if overall_health >= 80: ... elif >= 60:
... elif >= 40: ... else: ...`. The status strings carry the emoji prefix
exactly as in the source. -/
def healthTier (h : ℚ) : String × String × String :=
  if h ≥ 80 then ("🟢 Healthy", "Low", "Explore upsell opportunities")
  else if h ≥ 60 then ("🟡 Stable", "Medium", "Monitor engagement trends")
  else if h ≥ 40 then ("🟠 At Risk", "High", "Increase engagement, provide training")
  else ("🔴 Critical", "Critical", "Immediate intervention required")

/-- One health record per company: the overall score with its tier. -/
def healthRecord (c : Company) : String × ℚ × (String × String × String) :=
  (companyName c, overallHealth c, healthTier (overallHealth c))

/-- `health_scores` accumulated over the company list. -/
def healthRecords (cs : List Company) : List (String × ℚ × (String × String × String)) :=
  cs.map healthRecord

/-! Revenue Model (app.py lines 2454-2487). -/

/-- `total_revenue = users_count*10 + instances_count*50 + broadcasts_count*0.01`. -/
def monthlyRevenue (c : Company) : ℚ :=
  (c.users_count : ℚ) * 10 + (c.instances_count : ℚ) * 50 + (c.broadcasts_count : ℚ) * 0.01

/-- `'Annual Revenue': total_revenue * 12`. -/
def annualRevenue (c : Company) : ℚ := monthlyRevenue c * 12

/-- `'ARPU': total_revenue / users_count if users_count > 0 else 0`. -/
def arpu (c : Company) : ℚ :=
  if c.users_count > 0 then monthlyRevenue c / (c.users_count : ℚ) else 0

/-- Tier chain on monthly revenue: `if total_revenue >= 5000: "Enterprise"
elif >= 1000: "Professional" elif >= 100: "Growth" else: "Starter"`. -/
def revenueTier (r : ℚ) : String :=
  if r ≥ 5000 then "Enterprise"
  else if r ≥ 1000 then "Professional"
  else if r ≥ 100 then "Growth"
  else "Starter"

/-- One revenue record per company. -/
def revenueRecord (c : Company) : String × ℚ × ℚ × ℚ × String :=
  (companyName c, monthlyRevenue c, annualRevenue c, arpu c, revenueTier (monthlyRevenue c))

/-- `revenue_data` accumulated over the company list. -/
def revenueRecords (cs : List Company) : List (String × ℚ × ℚ × ℚ × String) :=
  cs.map revenueRecord

/-! Alert Rule Engine (app.py lines 2220-2318). -/

/-- Round-half-to-even of a rational to an integer: the rounding Python's
`format` applies for `:.0f` (the float/rational double-rounding coincides on
all inputs these metrics produce). -/
def roundHalfEven (q : ℚ) : ℤ :=
  let f := ⌊q⌋
  let r := q - (f : ℚ)
  if r < 1 / 2 then f
  else if 1 / 2 < r then f + 1
  else if f % 2 = 0 then f else f + 1

/-- Python `f'{x:.0f}'` on a nonnegative metric value. -/
def fmt0 (q : ℚ) : String := toString (roundHalfEven q)

/-- Python `f'{x:.1f}'` on a nonnegative metric value. -/
def fmt1 (q : ℚ) : String :=
  let n := roundHalfEven (q * 10)
  toString (n / 10) ++ "." ++ toString (n % 10)

/-- An alert record with the seven fields the source builds for each alert. -/
structure Alert where
  company : String
  alertType : String
  category : String
  message : String
  severity : String
  metric : String
  recommendedAction : String
deriving Repr, DecidableEq

/-- The alert appended when `activation_rate < 50` (app.py lines 2235-2244). -/
def lowActivationAlert (name : String) (active total : Nat) (rate : ℚ) : Alert :=
  { company := name
    alertType := "🔴 Critical"
    category := "User Activation"
    message := "Only " ++ fmt0 rate ++ "% of users are active"
    severity := "High"
    metric := toString active ++ "/" ++ toString total ++ " active"
    recommendedAction := "Contact customer success team immediately" }

/-- The alert appended when `50 <= activation_rate < 70` (app.py lines 2245-2254). -/
def moderateActivationAlert (name : String) (active total : Nat) (rate : ℚ) : Alert :=
  { company := name
    alertType := "🟠 Warning"
    category := "User Activation"
    message := "User activation rate at " ++ fmt0 rate ++ "%"
    severity := "Medium"
    metric := toString active ++ "/" ++ toString total ++ " active"
    recommendedAction := "Schedule training session" }

/-- The alert appended when instances exist but broadcasts == 0 (app.py lines 2257-2266). -/
def zeroBroadcastsAlert (name : String) (instCount : Nat) : Alert :=
  { company := name
    alertType := "🟠 Warning"
    category := "Usage"
    message := toString instCount ++ " instances but no broadcasts"
    severity := "Medium"
    metric := "0 broadcasts"
    recommendedAction := "Check if customer needs help setting up campaigns" }

/-- The alert appended when more than half of the instances are inactive
(app.py lines 2269-2281). -/
def idleInstancesAlert (name : String) (inactive total : Nat) : Alert :=
  { company := name
    alertType := "🟡 Info"
    category := "Resource Optimization"
    message := toString inactive ++ " of " ++ toString total ++ " instances are inactive"
    severity := "Low"
    metric := toString inactive ++ "/" ++ toString total ++ " inactive"
    recommendedAction := "Consider downsizing or reactivating instances" }

/-- The alert appended when more than 10 users but no channels (app.py lines 2283-2292). -/
def missingChannelsAlert (name : String) (userCount : Nat) : Alert :=
  { company := name
    alertType := "🔴 Critical"
    category := "Setup"
    message := toString userCount ++ " users but no channels configured"
    severity := "High"
    metric := "0 channels"
    recommendedAction := "Urgent: Complete onboarding process" }

/-- The alert appended when the user-to-instance ratio exceeds 20 (app.py lines 2295-2305). -/
def highRatioAlert (name : String) (userCount instCount : Nat) (ratio : ℚ) : Alert :=
  { company := name
    alertType := "🟡 Info"
    category := "Capacity"
    message := "High user-to-instance ratio (" ++ fmt1 ratio ++ ":1)"
    severity := "Low"
    metric := toString userCount ++ " users / " ++ toString instCount ++ " instances"
    recommendedAction := "May need additional instances for optimal performance" }

/-- The alert appended when the company has no users (app.py lines 2308-2317). -/
def noUsersAlert (name : String) : Alert :=
  { company := name
    alertType := "🔴 Critical"
    category := "Churn Risk"
    message := "Company has no users"
    severity := "Critical"
    metric := "0 users"
    recommendedAction := "Potential churn - reach out immediately" }

/-- `inactive_instances = sum(1 for i in instances if not i.get('active', False))`. -/
def countInactiveInstances (is_ : List Instance) : Nat :=
  (is_.filter (fun i => !i.activeApp)).length

/-- The unguarded activation rate computed inside the `if users:` block:
`active_users / len(users) * 100`. -/
def rawActivationRate (c : Company) : ℚ :=
  (countActiveUsers c.users : ℚ) / (c.users.length : ℚ) * 100

/-- The unguarded user-to-instance ratio computed inside the `if instances:`
block: `len(users) / len(instances)`. -/
def rawUserInstanceRatio (c : Company) : ℚ :=
  (c.users.length : ℚ) / (c.instances.length : ℚ)

/-- Source block 1 (`if users:` with the `if ... elif` on the activation rate). -/
def alertBlock1 (c : Company) : List Alert :=
  if c.users = [] then []
  else
    let rate := rawActivationRate c
    if rate < 50 then
      [lowActivationAlert (companyName c) (countActiveUsers c.users) c.users.length rate]
    else if rate < 70 then
      [moderateActivationAlert (companyName c) (countActiveUsers c.users) c.users.length rate]
    else []

/-- Source block 2 (`if instances and broadcasts == 0:`). -/
def alertBlock2 (c : Company) : List Alert :=
  if c.instances = [] then []
  else if c.broadcasts_count = 0 then [zeroBroadcastsAlert (companyName c) c.instances.length]
  else []

/-- Source block 3 (`if instances:` then the inactive-fraction test). -/
def alertBlock3 (c : Company) : List Alert :=
  if c.instances = [] then []
  else
    let inactive := countInactiveInstances c.instances
    if (inactive : ℚ) / (c.instances.length : ℚ) > 0.5 then
      [idleInstancesAlert (companyName c) inactive c.instances.length]
    else []

/-- Source block 4 (`if len(users) > 10 and len(channels) == 0:`). -/
def alertBlock4 (c : Company) : List Alert :=
  if c.users.length > 10 ∧ c.channels.length = 0 then
    [missingChannelsAlert (companyName c) c.users.length]
  else []

/-- Source block 5 (`if instances:` then the ratio test). -/
def alertBlock5 (c : Company) : List Alert :=
  if c.instances = [] then []
  else
    let ratio := rawUserInstanceRatio c
    if ratio > 20 then [highRatioAlert (companyName c) c.users.length c.instances.length ratio]
    else []

/-- Source block 6 (`if len(users) == 0:`). -/
def alertBlock6 (c : Company) : List Alert :=
  if c.users.length = 0 then [noUsersAlert (companyName c)] else []

/-- The per-company alert evaluation, mirroring the source's control flow:
six sequential blocks appended in source order. -/
def checkAlerts (c : Company) : List Alert :=
  alertBlock1 c ++ alertBlock2 c ++ alertBlock3 c ++ alertBlock4 c ++ alertBlock5 c ++
    alertBlock6 c

/-! The seven independent rules as the specification states them: each rule
is a standalone condition paired with the alert it emits, and the engine is
their independent concatenation. -/

/-- Rule condition: users non-empty and activation% < 50. -/
def lowActivationCond (c : Company) : Bool :=
  !c.users.isEmpty && decide (rawActivationRate c < 50)

/-- Rule condition: users non-empty and 50 ≤ activation% < 70. -/
def moderateActivationCond (c : Company) : Bool :=
  !c.users.isEmpty && decide (50 ≤ rawActivationRate c) && decide (rawActivationRate c < 70)

/-- Rule condition: instances non-empty and broadcasts == 0. -/
def zeroBroadcastsCond (c : Company) : Bool :=
  !c.instances.isEmpty && decide (c.broadcasts_count = 0)

/-- Rule condition: instances non-empty and inactive fraction > 0.5. -/
def idleInstancesCond (c : Company) : Bool :=
  !c.instances.isEmpty &&
    decide ((countInactiveInstances c.instances : ℚ) / (c.instances.length : ℚ) > 0.5)

/-- Rule condition: more than 10 users and no channels. -/
def missingChannelsCond (c : Company) : Bool :=
  decide (c.users.length > 10) && decide (c.channels.length = 0)

/-- Rule condition: instances non-empty and users/instances > 20. -/
def highRatioCond (c : Company) : Bool :=
  !c.instances.isEmpty && decide (rawUserInstanceRatio c > 20)

/-- Rule condition: no users. -/
def noUsersCond (c : Company) : Bool := decide (c.users.length = 0)

/-- The seven rules as independent (condition, alert) pairs, in source order. -/
def ruleTable (c : Company) : List (Bool × Alert) :=
  let name := companyName c
  [ (lowActivationCond c,
      lowActivationAlert name (countActiveUsers c.users) c.users.length (rawActivationRate c)),
    (moderateActivationCond c,
      moderateActivationAlert name (countActiveUsers c.users) c.users.length (rawActivationRate c)),
    (zeroBroadcastsCond c, zeroBroadcastsAlert name c.instances.length),
    (idleInstancesCond c,
      idleInstancesAlert name (countInactiveInstances c.instances) c.instances.length),
    (missingChannelsCond c, missingChannelsAlert name c.users.length),
    (highRatioCond c, highRatioAlert name c.users.length c.instances.length
      (rawUserInstanceRatio c)),
    (noUsersCond c, noUsersAlert name) ]

/-- The alerts of exactly the rules whose conditions hold, each rule
evaluated independently of the others. -/
def rulesAlerts (c : Company) : List Alert :=
  (ruleTable c).filterMap (fun p => if p.1 then some p.2 else none)

/-- `alerts` accumulated over the company list. -/
def allAlerts (cs : List Company) : List Alert := (cs.map checkAlerts).flatten

/-! Benchmark Engine (app.py lines 2652-2698). -/

/-- Round-half-to-even to one decimal place: Python's `round(x, 1)` applied
to these metric values. -/
def round1 (q : ℚ) : ℚ := (roundHalfEven (q * 10) : ℚ) / 10

/-- The per-company benchmark row (app.py lines 2661-2665, each value
rounded to one decimal as in lines 2669-2673). -/
structure BenchRow where
  activation : ℚ
  utilization : ℚ
  perChannel : ℚ
  perUser : ℚ
  perInstance : ℚ
deriving Repr, DecidableEq

/-- One row of `benchmark_data` for a company. -/
def benchRow (c : Company) : BenchRow :=
  { activation := round1 (userActivationRate c)
    utilization := round1 (instanceUtilizationRate c)
    perChannel := round1 (usersPerChannel c)
    perUser := round1 (broadcastsPerUser c)
    perInstance := round1 (broadcastsPerInstance c) }

/-- Linear-interpolation quantile of a list of values, the default
(`interpolation='linear'`) semantics of `pandas.Series.quantile` /
`median` on a non-empty column: with the values sorted ascending and
`h = (n-1)·q`, the result is `s[⌊h⌋] + (s[⌊h⌋+1] - s[⌊h⌋])·(h - ⌊h⌋)`. -/
def pdQuantile (xs : List ℚ) (q : ℚ) : ℚ :=
  let s := List.insertionSort (· ≤ ·) xs
  let h : ℚ := ((xs.length : ℚ) - 1) * q
  let i : ℕ := (⌊h⌋).toNat
  let lo := s.getD i 0
  let hi := s.getD (i + 1) lo
  lo + (hi - lo) * (h - (i : ℚ))

/-- How a benchmark computation can fail. `keyError` models the Python
`KeyError` a pandas column lookup raises on a DataFrame built from an empty
record list (such a frame has no columns at all). `insufficientData` is the
explicit fail-fast signal the specification asks for; it is modelled from
the spec and never produced by the source code. -/
inductive BenchError where
  | keyError (column : String)
  | insufficientData
deriving Repr, DecidableEq

/-- The three percentiles the source computes per metric:
(`Top 25%`, `Median`, `Bottom 25%`), i.e. quantiles 0.75, 0.5, 0.25. -/
def quantTriple (xs : List ℚ) : ℚ × ℚ × ℚ :=
  (pdQuantile xs (3 / 4), pdQuantile xs (1 / 2), pdQuantile xs (1 / 4))

/-- The `benchmarks` table of app.py lines 2683-2698: percentile triples
for the three metrics the source benchmarks (user activation %, instance
utilization %, broadcasts/user). On an empty company list the DataFrame has
no columns, so the first column access `df_benchmark['User Activation %']`
raises `KeyError` before any quantile is computed. -/
structure BenchTable where
  userActivation : ℚ × ℚ × ℚ
  instanceUtilization : ℚ × ℚ × ℚ
  broadcastsPerUser : ℚ × ℚ × ℚ
deriving Repr, DecidableEq

/-- The benchmark computation over a company list. -/
def benchmarkTable (cs : List Company) : Except BenchError BenchTable :=
  if cs = [] then .error (.keyError "User Activation %")
  else
    let rows := cs.map benchRow
    .ok
      { userActivation := quantTriple (rows.map BenchRow.activation)
        instanceUtilization := quantTriple (rows.map BenchRow.utilization)
        broadcastsPerUser := quantTriple (rows.map BenchRow.perUser) }

/-! Forecast Engine backfill (app.py lines 1570-1604). The source builds
`months` from 12 months ago down to 1 month ago, then for each enumerate
index `i` (0 = oldest) sets `growth_factor = 1 + (i * 0.05) + (np.random.random() * 0.1)`
and the synthetic value `int(base / growth_factor) if base > 0 else 0`,
finally appending the true current total as the 13th point. The random
draw `np.random.random() * 0.1` is modelled as an arbitrary perturbation
`eps i ∈ [0, 0.1)` supplied as a parameter. -/

/-- `growth_factor` for enumerate index `i` (0 = 12 periods ago, 11 = 1
period ago) and perturbation `eps`. -/
def growthFactor (i : ℕ) (eps : ℚ) : ℚ := 1 + (i : ℚ) * 0.05 + eps

/-- One synthesized point: `int(base / growth_factor) if base > 0 else 0`
(the factor is positive, so Python's truncating `int` is the floor here). -/
def synthPoint (base : ℕ) (i : ℕ) (eps : ℚ) : ℤ :=
  if base > 0 then ⌊(base : ℚ) / growthFactor i eps⌋ else 0

/-- The 13-point series handed to the linear fit: the 12 synthesized
backward periods in chronological order (index 0 = 12 periods ago), then
the true current total. -/
def synthHistory (base : ℕ) (eps : ℕ → ℚ) : List ℤ :=
  ((List.range 12).map (fun i => synthPoint base i (eps i))) ++ [(base : ℤ)]

/-! Concrete inputs used by the example evaluations below. -/

/-- A user with a given type name and `isActive` flag (no `user_status` field). -/
def mkUser (t : String) (a : Bool) : User := ⟨some t, none, some a⟩

/-- A company whose five users carry five distinct `user_type_name` values,
all active, with one active instance, one channel and 25 broadcasts. -/
def exC2 : Company :=
  { name := some "Five Types Inc"
    users := [mkUser "Agent" true, mkUser "Admin" true, mkUser "Supervisor" true,
      mkUser "AI" true, mkUser "Unknown" true]
    instances := [⟨some true⟩]
    channels := [⟨some true⟩]
    users_count := 5, instances_count := 1, broadcasts_count := 25 }

/-- A company with a single user type. -/
def exC2ok : Company :=
  { name := some "One Type Inc"
    users := [mkUser "Agent" true]
    instances := [⟨some true⟩]
    channels := [⟨some true⟩]
    users_count := 1, instances_count := 1, broadcasts_count := 25 }

/-- The revenue example: 100 users, 2 instances, 500 broadcasts. -/
def exRevenue : Company :=
  { name := some "Acme"
    users := [], instances := [], channels := []
    users_count := 100, instances_count := 2, broadcasts_count := 500 }

/-- A user whose `user_status` is present and truthy while `isActive` is false. -/
def exStatusUser : User := ⟨none, some true, some false⟩

/-- A company whose only user is `exStatusUser`. -/
def exC9 : Company :=
  { name := some "StatusCo"
    users := [exStatusUser], instances := [], channels := []
    users_count := 1, instances_count := 0, broadcasts_count := 0 }

/-- Users with no `user_status` field at all. -/
def exNoStatusUsers : List User := [⟨some "Agent", none, some true⟩, ⟨none, none, some false⟩]

/-- A list of users of which the first `active` are active. -/
def mkUsers (total active : ℕ) : List User :=
  List.replicate active (mkUser "Agent" true) ++ List.replicate (total - active) (mkUser "Agent" false)

/-- A company with a given user-activation percentage and nothing else. -/
def benchCompany (nm : String) (total active : ℕ) : Company :=
  { name := some nm
    users := mkUsers total active, instances := [], channels := []
    users_count := total, instances_count := 0, broadcasts_count := 0 }

/-- Four companies whose user-activation percentages are 10, 20, 30 and 40. -/
def cs4 : List Company :=
  [benchCompany "A" 10 1, benchCompany "B" 5 1, benchCompany "C" 10 3, benchCompany "D" 5 2]

/-! Helper lemmas for the alert-engine refinement. -/

lemma guard_filterMap (x : Bool × Alert) (l : List (Bool × Alert)) :
    List.filterMap (fun p => if p.1 then some p.2 else none) (x :: l)
      = (if x.1 then [x.2] else []) ++ List.filterMap (fun p => if p.1 then some p.2 else none) l := by
  rcases x with ⟨b, a⟩
  cases b <;> simp

lemma rulesAlerts_eq (c : Company) :
    rulesAlerts c =
      (if lowActivationCond c then
        [lowActivationAlert (companyName c) (countActiveUsers c.users) c.users.length
          (rawActivationRate c)] else []) ++
      ((if moderateActivationCond c then
        [moderateActivationAlert (companyName c) (countActiveUsers c.users) c.users.length
          (rawActivationRate c)] else []) ++
      ((if zeroBroadcastsCond c then [zeroBroadcastsAlert (companyName c) c.instances.length]
        else []) ++
      ((if idleInstancesCond c then
        [idleInstancesAlert (companyName c) (countInactiveInstances c.instances)
          c.instances.length] else []) ++
      ((if missingChannelsCond c then [missingChannelsAlert (companyName c) c.users.length]
        else []) ++
      ((if highRatioCond c then
        [highRatioAlert (companyName c) c.users.length c.instances.length
          (rawUserInstanceRatio c)] else []) ++
      (if noUsersCond c then [noUsersAlert (companyName c)] else [])))))) := by
  simp only [rulesAlerts, ruleTable, guard_filterMap, List.filterMap_nil, List.append_nil]

lemma alertBlock1_eq (c : Company) :
    alertBlock1 c =
      (if lowActivationCond c then
        [lowActivationAlert (companyName c) (countActiveUsers c.users) c.users.length
          (rawActivationRate c)] else []) ++
      (if moderateActivationCond c then
        [moderateActivationAlert (companyName c) (countActiveUsers c.users) c.users.length
          (rawActivationRate c)] else []) := by
  unfold alertBlock1 lowActivationCond moderateActivationCond
  by_cases hu : c.users = []
  · simp [hu]
  · by_cases h50 : rawActivationRate c < 50
    · simp [hu, h50, show ¬(50 ≤ rawActivationRate c) from not_le.mpr h50]
    · by_cases h70 : rawActivationRate c < 70
      · simp [hu, h50, h70, not_lt.mp h50]
      · simp [hu, h50, h70, not_lt.mp h50]

lemma alertBlock2_eq (c : Company) :
    alertBlock2 c =
      (if zeroBroadcastsCond c then [zeroBroadcastsAlert (companyName c) c.instances.length]
        else []) := by
  unfold alertBlock2 zeroBroadcastsCond
  by_cases hi : c.instances = [] <;> by_cases hb : c.broadcasts_count = 0 <;> simp [hi, hb]

lemma alertBlock3_eq (c : Company) :
    alertBlock3 c =
      (if idleInstancesCond c then
        [idleInstancesAlert (companyName c) (countInactiveInstances c.instances)
          c.instances.length] else []) := by
  unfold alertBlock3 idleInstancesCond
  by_cases hi : c.instances = []
  · simp [hi]
  · by_cases hf :
      (countInactiveInstances c.instances : ℚ) / (c.instances.length : ℚ) > 0.5 <;>
      simp [hi, hf]

lemma alertBlock4_eq (c : Company) :
    alertBlock4 c =
      (if missingChannelsCond c then [missingChannelsAlert (companyName c) c.users.length]
        else []) := by
  unfold alertBlock4 missingChannelsCond
  by_cases hu : c.users.length > 10 <;> by_cases hc : c.channels.length = 0 <;>
    simp [hu, hc]

lemma alertBlock5_eq (c : Company) :
    alertBlock5 c =
      (if highRatioCond c then
        [highRatioAlert (companyName c) c.users.length c.instances.length
          (rawUserInstanceRatio c)] else []) := by
  unfold alertBlock5 highRatioCond
  by_cases hi : c.instances = []
  · simp [hi]
  · by_cases hr : rawUserInstanceRatio c > 20 <;> simp [hi, hr]

lemma alertBlock6_eq (c : Company) :
    alertBlock6 c = (if noUsersCond c then [noUsersAlert (companyName c)] else []) := by
  unfold alertBlock6 noUsersCond
  by_cases hu : c.users.length = 0 <;> simp [hu]

lemma checkAlerts_eq_rulesAlerts (c : Company) : checkAlerts c = rulesAlerts c := by
  rw [checkAlerts, rulesAlerts_eq, alertBlock1_eq, alertBlock2_eq, alertBlock3_eq,
    alertBlock4_eq, alertBlock5_eq, alertBlock6_eq]
  simp [List.append_assoc]

lemma noUsers_lowActivation_exclusive (c : Company) :
    (noUsersCond c && lowActivationCond c) = false := by
  unfold noUsersCond lowActivationCond
  cases h : c.users with
  | nil => simp [h]
  | cons a t => simp [h]

/-! Bound lemmas for the health score components. -/

lemma rate_bounds (a b : ℕ) (hab : a ≤ b) (hb : 0 < b) :
    0 ≤ (a : ℚ) / (b : ℚ) * 100 ∧ (a : ℚ) / (b : ℚ) * 100 ≤ 100 := by
  have hb' : (0 : ℚ) < (b : ℚ) := by exact_mod_cast hb
  constructor
  · positivity
  · have h1 : (a : ℚ) / (b : ℚ) ≤ 1 := by
      rw [div_le_one hb']
      exact_mod_cast hab
    nlinarith

lemma userActivationRate_bounds (c : Company) :
    0 ≤ userActivationRate c ∧ userActivationRate c ≤ 100 := by
  unfold userActivationRate
  by_cases hu : c.users = []
  · simp [hu]
  · have hlen : 0 < c.users.length := List.length_pos.mpr hu
    have hle : countActiveUsers c.users ≤ c.users.length := List.length_filter_le _ _
    simpa [hu] using rate_bounds _ _ hle hlen

lemma instanceUtilizationRate_bounds (c : Company) :
    0 ≤ instanceUtilizationRate c ∧ instanceUtilizationRate c ≤ 100 := by
  unfold instanceUtilizationRate
  by_cases hi : c.instances = []
  · simp [hi]
  · have hlen : 0 < c.instances.length := List.length_pos.mpr hi
    have hle : countActiveInstances c.instances ≤ c.instances.length :=
      List.length_filter_le _ _
    simpa [hi] using rate_bounds _ _ hle hlen

lemma engagementScore_bounds (c : Company) :
    0 ≤ engagementScore c ∧ engagementScore c ≤ 100 := by
  obtain ⟨h1, h2⟩ := userActivationRate_bounds c
  obtain ⟨h3, h4⟩ := instanceUtilizationRate_bounds c
  unfold engagementScore
  constructor <;> nlinarith

lemma typeDiversity_nonneg (c : Company) : 0 ≤ typeDiversity c := by
  unfold typeDiversity
  positivity

lemma adoptionScore_bounds (c : Company) (h : distinctTypeCount c ≤ 4) :
    0 ≤ adoptionScore c ∧ adoptionScore c ≤ 100 := by
  have h0 := typeDiversity_nonneg c
  have h4 : typeDiversity c ≤ 100 := by
    unfold typeDiversity
    have : (distinctTypeCount c : ℚ) ≤ 4 := by exact_mod_cast h
    nlinarith
  unfold adoptionScore
  by_cases hb : c.broadcasts_count > 0 <;> by_cases hc : c.channels.length > 0 <;>
    simp [hb, hc] <;> constructor <;> nlinarith

lemma usersPerChannel_nonneg (c : Company) : 0 ≤ usersPerChannel c := by
  unfold usersPerChannel
  by_cases hc : c.channels = []
  · simp [hc]
  · simp only [hc, if_false]
    positivity

lemma broadcastsPerInstance_nonneg (c : Company) : 0 ≤ broadcastsPerInstance c := by
  unfold broadcastsPerInstance
  by_cases hi : c.instances = []
  · simp [hi]
  · simp only [hi, if_false]
    positivity

lemma growthPotential_bounds (c : Company) :
    0 ≤ growthPotential c ∧ growthPotential c ≤ 100 := by
  have h1 := usersPerChannel_nonneg c
  have h2 := broadcastsPerInstance_nonneg c
  unfold growthPotential
  constructor
  · apply le_min _ (by norm_num)
    nlinarith
  · exact min_le_right _ _

lemma overallOf_bounds {e a g : ℚ} (he0 : 0 ≤ e) (he1 : e ≤ 100) (ha0 : 0 ≤ a)
    (ha1 : a ≤ 100) (hg0 : 0 ≤ g) (hg1 : g ≤ 100) :
    0 ≤ overallOf e a g ∧ overallOf e a g ≤ 100 := by
  unfold overallOf
  constructor <;> nlinarith

/-! Lemmas for the benchmark percentile computations. -/

lemma pdQuantile_singleton (v q : ℚ) : pdQuantile [v] q = v := by
  simp [pdQuantile, List.insertionSort, List.orderedInsert]

lemma benchRow_benchCompany (nm : String) (total active : ℕ) (h : ¬mkUsers total active = [])
    (hc : countActiveUsers (mkUsers total active) = active)
    (hl : (mkUsers total active).length = total) :
    benchRow (benchCompany nm total active) =
      ⟨round1 ((active : ℚ) / (total : ℚ) * 100), 0, 0, round1 0, 0⟩ := by
  unfold benchRow benchCompany
  rw [userActivationRate, instanceUtilizationRate, usersPerChannel, broadcastsPerUser,
    broadcastsPerInstance]
  simp only [h, if_neg, if_pos, hc, hl]
  norm_num [round1, roundHalfEven]

/-- `user_status`-blind and `user_status`-first active counts agree when no
user carries a `user_status` field. -/
lemma console_eq_app_of_no_status (us : List User)
    (h : ∀ u ∈ us, u.user_status = none) : consoleActiveCount us = countActiveUsers us := by
  induction us with
  | nil => rfl
  | cons u t ih =>
    have hu : u.user_status = none := h u (List.mem_cons_self u t)
    have ht := ih (fun x hx => h x (List.mem_cons_of_mem u hx))
    unfold consoleActiveCount countActiveUsers at *
    have huu : User.activeConsole u = User.activeApp u := by
      unfold User.activeConsole User.activeApp
      rw [hu]
      rfl
    simp only [List.filter_cons, huu]
    cases User.activeApp u <;> simp [ht]

/-! The claims. -/

/-- Claim C1: for every company the Health Scoring Engine computes
Engagement = userActivation×0.6 + instanceUtilization×0.4, TypeDiversity =
(distinct user type count / 4)×100, Adoption = TypeDiversity×0.4 +
(100 if any broadcast exists else 0)×0.3 + (100 if any channel exists else 0)×0.3,
GrowthPotential = min(usersPerChannel/10×50 + broadcastsPerInstance/5×50, 100)
and OverallHealth = Engagement×0.4 + Adoption×0.3 + GrowthPotential×0.3,
where the activation and utilization percentages are the active count over
the collection length and 0 for an empty collection. -/
theorem health_score_formulas (c : Company) :
    engagementScore c = userActivationRate c * 0.6 + instanceUtilizationRate c * 0.4 ∧
    typeDiversity c = (distinctTypeCount c : ℚ) / 4 * 100 ∧
    adoptionScore c =
      typeDiversity c * 0.4 + (if c.broadcasts_count > 0 then (100 : ℚ) else 0) * 0.3 +
        (if c.channels.length > 0 then (100 : ℚ) else 0) * 0.3 ∧
    growthPotential c =
      min (usersPerChannel c / 10 * 50 + broadcastsPerInstance c / 5 * 50) 100 ∧
    overallHealth c =
      engagementScore c * 0.4 + adoptionScore c * 0.3 + growthPotential c * 0.3 ∧
    userActivationRate c =
      (if c.users = [] then 0
       else (countActiveUsers c.users : ℚ) / (c.users.length : ℚ) * 100) ∧
    instanceUtilizationRate c =
      (if c.instances = [] then 0
       else (countActiveInstances c.instances : ℚ) / (c.instances.length : ℚ) * 100) :=
  ⟨rfl, rfl, rfl, rfl, rfl, rfl, rfl⟩

/-- Claim C2 counterexample: the company `exC2`, whose users carry five
distinct `user_type_name` values, gets an Overall Health Score of 103,
above 100 — the code does not cap TypeDiversity. -/
theorem health_score_can_exceed_100 :
    distinctTypeCount exC2 = 5 ∧ overallHealth exC2 = 103 ∧ 100 < overallHealth exC2 := by
  have hd : distinctTypeCount exC2 = 5 := by decide
  have hu : userActivationRate exC2 = 100 := by
    have h1 : countActiveUsers exC2.users = 5 := by decide
    have h2 : exC2.users.length = 5 := by decide
    rw [userActivationRate, if_neg (by decide), h1, h2]
    norm_num
  have hi : instanceUtilizationRate exC2 = 100 := by
    have h1 : countActiveInstances exC2.instances = 1 := by decide
    have h2 : exC2.instances.length = 1 := by decide
    rw [instanceUtilizationRate, if_neg (by decide), h1, h2]
    norm_num
  have ha : adoptionScore exC2 = 110 := by
    rw [adoptionScore, typeDiversity, hd, if_pos (by decide : exC2.broadcasts_count > 0),
      if_pos (by decide : exC2.channels.length > 0)]
    norm_num
  have hg : growthPotential exC2 = 100 := by
    have h1 : exC2.users.length = 5 := by decide
    have h2 : exC2.channels.length = 1 := by decide
    have h3 : exC2.instances.length = 1 := by decide
    have h4 : exC2.broadcasts_count = 25 := by decide
    rw [growthPotential, usersPerChannel, broadcastsPerInstance,
      if_neg (by decide : ¬exC2.channels = []), if_neg (by decide : ¬exC2.instances = []),
      h1, h2, h3, h4]
    norm_num
  have ho : overallHealth exC2 = 103 := by
    rw [overallHealth, engagementScore, hu, hi, ha, hg, overallOf]
    norm_num
  exact ⟨hd, ho, by rw [ho]; norm_num⟩

/-- Claim C2 (amended): the Overall Health Score is monotonically
non-decreasing in each of Engagement, Adoption and Growth Potential holding
the other two fixed, and lies in [0,100] for every company with at most
four distinct `user_type_name` values; with five or more distinct values
the uncapped TypeDiversity can push it above 100. -/
theorem health_monotone_and_bounded :
    (∀ e a g e' : ℚ, e ≤ e' → overallOf e a g ≤ overallOf e' a g) ∧
    (∀ e a g a' : ℚ, a ≤ a' → overallOf e a g ≤ overallOf e a' g) ∧
    (∀ e a g g' : ℚ, g ≤ g' → overallOf e a g ≤ overallOf e a g') ∧
    (∀ c : Company, distinctTypeCount c ≤ 4 →
      0 ≤ overallHealth c ∧ overallHealth c ≤ 100) := by
  refine ⟨?_, ?_, ?_, ?_⟩
  · intro e a g e' h
    unfold overallOf
    nlinarith
  · intro e a g a' h
    unfold overallOf
    nlinarith
  · intro e a g g' h
    unfold overallOf
    nlinarith
  · intro c h
    obtain ⟨he0, he1⟩ := engagementScore_bounds c
    obtain ⟨ha0, ha1⟩ := adoptionScore_bounds c h
    obtain ⟨hg0, hg1⟩ := growthPotential_bounds c
    exact overallOf_bounds he0 he1 ha0 ha1 hg0 hg1

/-- Witness for the amended C2 theorem at concrete inputs. -/
theorem health_monotone_and_bounded_witness :
    overallOf 10 50 50 ≤ overallOf 20 50 50 ∧ overallOf 10 50 50 ≤ overallOf 10 60 50 ∧
    overallOf 10 50 50 ≤ overallOf 10 50 60 ∧
    (0 ≤ overallHealth exC2ok ∧ overallHealth exC2ok ≤ 100) :=
  ⟨health_monotone_and_bounded.1 10 50 50 20 (by norm_num),
   health_monotone_and_bounded.2.1 10 50 50 60 (by norm_num),
   health_monotone_and_bounded.2.2.1 10 50 50 60 (by norm_num),
   health_monotone_and_bounded.2.2.2 exC2ok (by decide)⟩

/-- Claim C3: the Alert Rule Engine emits exactly the alerts of the seven
independent rules whose conditions hold on the company, no rule suppressing
another, and the no-users rule never co-fires with the low-activation rule. -/
theorem alert_rules_exact (c : Company) :
    checkAlerts c = rulesAlerts c ∧ (noUsersCond c && lowActivationCond c) = false :=
  ⟨checkAlerts_eq_rulesAlerts c, noUsers_lowActivation_exclusive c⟩

/-- Claim C4: the Revenue Model computes monthly revenue users×10 +
instances×50 + broadcasts×0.01 from the counters, annual = monthly×12,
ARPU = monthly/users (0 when users is 0), tiers by inclusive lower bounds
evaluated high to low, and the concrete example (100 users, 2 instances,
500 broadcasts) yields monthly revenue 1105 and tier Professional. -/
theorem revenue_model (c : Company) :
    monthlyRevenue c =
      (c.users_count : ℚ) * 10 + (c.instances_count : ℚ) * 50 +
        (c.broadcasts_count : ℚ) * 0.01 ∧
    annualRevenue c = monthlyRevenue c * 12 ∧
    arpu c = (if c.users_count > 0 then monthlyRevenue c / (c.users_count : ℚ) else 0) ∧
    revenueTier (monthlyRevenue c) =
      (if monthlyRevenue c ≥ 5000 then "Enterprise"
       else if monthlyRevenue c ≥ 1000 then "Professional"
       else if monthlyRevenue c ≥ 100 then "Growth"
       else "Starter") ∧
    monthlyRevenue exRevenue = 1105 ∧
    revenueTier (monthlyRevenue exRevenue) = "Professional" := by
  have h : monthlyRevenue exRevenue = 1105 := by norm_num [monthlyRevenue, exRevenue]
  refine ⟨rfl, rfl, rfl, rfl, h, ?_⟩
  rw [h, revenueTier]
  norm_num

/-- Claim C5: the Benchmark Engine computes cross-company percentiles by
the standard linear-interpolation definition: a single company yields
degenerate percentiles equal to its own row values, activation values
[10,20,30,40] give 25th percentile 17.5, median 25 and 75th percentile
32.5, and the full benchmark table over four such companies reproduces
those numbers. -/
theorem benchmark_percentiles :
    (∀ v : ℚ,
      pdQuantile [v] (1/4) = v ∧ pdQuantile [v] (1/2) = v ∧ pdQuantile [v] (3/4) = v) ∧
    (∀ c : Company, benchmarkTable [c] = Except.ok
      { userActivation :=
          ((benchRow c).activation, (benchRow c).activation, (benchRow c).activation)
        instanceUtilization :=
          ((benchRow c).utilization, (benchRow c).utilization, (benchRow c).utilization)
        broadcastsPerUser :=
          ((benchRow c).perUser, (benchRow c).perUser, (benchRow c).perUser) }) ∧
    quantTriple [10, 20, 30, 40] = (32.5, 25, 17.5) ∧
    benchmarkTable cs4 = Except.ok
      { userActivation := (32.5, 25, 17.5)
        instanceUtilization := (0, 0, 0)
        broadcastsPerUser := (0, 0, 0) } := by
  have hq1 : quantTriple [10, 20, 30, 40] = (32.5, 25, 17.5) := by
    norm_num [quantTriple, pdQuantile, List.insertionSort, List.orderedInsert, List.getD,
      show Int.toNat 0 = 0 from rfl, show Int.toNat 1 = 1 from rfl,
      show Int.toNat 2 = 2 from rfl, List.getElem_cons_zero, List.getElem_cons_succ]
  have hq0 : quantTriple [0, 0, 0, 0] = (0, 0, 0) := by
    norm_num [quantTriple, pdQuantile, List.insertionSort, List.orderedInsert, List.getD,
      show Int.toNat 0 = 0 from rfl, show Int.toNat 1 = 1 from rfl,
      show Int.toNat 2 = 2 from rfl, List.getElem_cons_zero, List.getElem_cons_succ]
  refine ⟨fun v =>
    ⟨pdQuantile_singleton v _, pdQuantile_singleton v _, pdQuantile_singleton v _⟩,
    ?_, hq1, ?_⟩
  · intro c
    simp [benchmarkTable, quantTriple, pdQuantile_singleton]
  · have hA : benchRow (benchCompany "A" 10 1) = ⟨10, 0, 0, 0, 0⟩ := by
      rw [benchRow_benchCompany "A" 10 1 (by decide) (by decide) (by decide)]
      norm_num [round1, roundHalfEven]
    have hB : benchRow (benchCompany "B" 5 1) = ⟨20, 0, 0, 0, 0⟩ := by
      rw [benchRow_benchCompany "B" 5 1 (by decide) (by decide) (by decide)]
      norm_num [round1, roundHalfEven]
    have hC : benchRow (benchCompany "C" 10 3) = ⟨30, 0, 0, 0, 0⟩ := by
      rw [benchRow_benchCompany "C" 10 3 (by decide) (by decide) (by decide)]
      norm_num [round1, roundHalfEven]
    have hD : benchRow (benchCompany "D" 5 2) = ⟨40, 0, 0, 0, 0⟩ := by
      rw [benchRow_benchCompany "D" 5 2 (by decide) (by decide) (by decide)]
      norm_num [round1, roundHalfEven]
    rw [benchmarkTable, if_neg (by decide : ¬cs4 = [])]
    simp only [cs4, List.map_cons, List.map_nil, hA, hB, hC, hD]
    rw [hq1, hq0]

/-- Claim C6: evaluating the synthetic-backfill code at current total 1000
with the random perturbation fixed to 0: the growth factor grows with the
enumerate index (0 = the oldest period), so the synthesized 12-point
history strictly declines toward the present instead of rising, its oldest
point is the full current total 1000, while the claimed formula
total/(1 + 0.05×12) for the oldest point gives 625. -/
theorem forecast_backfill_declines :
    synthHistory 1000 (fun _ => 0) =
      [1000, 952, 909, 869, 833, 800, 769, 740, 714, 689, 666, 645, 1000] ∧
    List.Chain' (fun x y : ℤ => x > y)
      [1000, 952, 909, 869, 833, 800, 769, 740, 714, 689, 666, 645] ∧
    synthPoint 1000 0 0 = 1000 ∧
    ⌊(1000 : ℚ) / growthFactor 12 0⌋ = 625 ∧
    (decide ((1000 : ℤ) = 625) = false) := by
  refine ⟨?_, ?_, ?_, ?_, by decide⟩
  · norm_num [synthHistory, synthPoint, growthFactor, List.range_succ]
  · simp only [List.chain'_cons, List.chain'_singleton, and_true]
    norm_num
  · norm_num [synthPoint, growthFactor]
  · norm_num [growthFactor]

/-- Claim C7: the tier derived from the Overall Health Score uses inclusive
lower bounds evaluated high to low with first match winning — 80 is
Healthy/Low, 79.99 and 60 are Stable/Medium, 40 is At Risk/High, 39.99 is
Critical/Critical (status strings carry the source's emoji prefix) — and
the per-company health record derives its tier from the company's overall
health. -/
theorem health_tier_boundaries :
    healthTier 80 = ("🟢 Healthy", "Low", "Explore upsell opportunities") ∧
    healthTier 79.99 = ("🟡 Stable", "Medium", "Monitor engagement trends") ∧
    healthTier 60 = ("🟡 Stable", "Medium", "Monitor engagement trends") ∧
    healthTier 40 = ("🟠 At Risk", "High", "Increase engagement, provide training") ∧
    healthTier 39.99 = ("🔴 Critical", "Critical", "Immediate intervention required") ∧
    (∀ c : Company,
      healthRecord c = (companyName c, overallHealth c, healthTier (overallHealth c))) :=
  ⟨by norm_num [healthTier], by norm_num [healthTier], by norm_num [healthTier],
   by norm_num [healthTier], by norm_num [healthTier], fun _ => rfl⟩

/-- Claim C8 counterexample: on an empty company set the benchmark
computation fails with the KeyError of the missing DataFrame column — not
with the explicit insufficient-data signal the claim describes. -/
theorem empty_set_keyerror_not_insufficient :
    benchmarkTable [] = Except.error (BenchError.keyError "User Activation %") ∧
    (decide (BenchError.keyError "User Activation %" = BenchError.insufficientData)
      = false) :=
  ⟨rfl, by decide⟩

/-- Claim C8 (amended): on an empty company set every per-company
computation yields an empty result list, and the benchmark computation does
fail fast — but with an uncaught KeyError from the empty DataFrame column
lookup rather than an explicit insufficient-data signal. -/
theorem empty_company_set_behavior :
    benchmarkTable [] = Except.error (BenchError.keyError "User Activation %") ∧
    healthRecords [] = [] ∧ allAlerts [] = [] ∧ revenueRecords [] = [] :=
  ⟨rfl, rfl, rfl, rfl⟩

/-- Claim C9 counterexample: a user whose `user_status` is present and true
while `isActive` is false is counted active by the console/chart test but
inactive by the app.py computations — the company holding only this user
gets user activation rate 0 where the claim predicts 100. -/
theorem active_flag_site_counterexample :
    User.activeConsole exStatusUser = true ∧ User.activeApp exStatusUser = false ∧
    consoleActiveCount [exStatusUser] = 1 ∧ countActiveUsers [exStatusUser] = 0 ∧
    userActivationRate exC9 = 0 := by
  refine ⟨by decide, by decide, by decide, by decide, ?_⟩
  have h1 : countActiveUsers exC9.users = 0 := by decide
  rw [userActivationRate, if_neg (by decide), h1]
  norm_num

/-- Claim C9 (amended): only src/1.py and src/2.py count a user active via
`user_status` if present else `isActive`; the src/app.py computations count
a user active iff `isActive` holds, ignoring `user_status`; the two
criteria agree on user lists where `user_status` is absent throughout. -/
theorem active_flag_sites :
    (∀ u : User, User.activeConsole u = u.user_status.getD (u.isActive.getD false)) ∧
    (∀ u : User, User.activeApp u = u.isActive.getD false) ∧
    (∀ us : List User, (∀ u ∈ us, u.user_status = none) →
      consoleActiveCount us = countActiveUsers us) :=
  ⟨fun _ => rfl, fun _ => rfl, console_eq_app_of_no_status⟩

/-- Witness for the amended C9 theorem at concrete inputs. -/
theorem active_flag_sites_witness :
    User.activeConsole exStatusUser =
      exStatusUser.user_status.getD (exStatusUser.isActive.getD false) ∧
    consoleActiveCount exNoStatusUsers = countActiveUsers exNoStatusUsers :=
  ⟨active_flag_sites.1 exStatusUser,
   active_flag_sites.2.2 exNoStatusUsers (by decide)⟩

/-- Claim C10: for every company, emptying any one collection sends every
rate depending on it to 0 — user activation and broadcasts-per-user for
users, instance utilization and broadcasts-per-instance for instances,
channel activity and users-per-channel for channels — with no division
performed. -/
theorem empty_collection_rates (c : Company) :
    userActivationRate { c with users := [] } = 0 ∧
    broadcastsPerUser { c with users := [] } = 0 ∧
    instanceUtilizationRate { c with instances := [] } = 0 ∧
    broadcastsPerInstance { c with instances := [] } = 0 ∧
    channelActivityRate { c with channels := [] } = 0 ∧
    usersPerChannel { c with channels := [] } = 0 :=
  ⟨rfl, rfl, rfl, rfl, rfl, rfl⟩

end Companies
